import Mathlib

/-!
Shallow embedding of the `azuretexttospeech` Go client library.

The embedding follows the current sources: the client in the main package
file (`refreshToken`, `startRefresher`, `SynthesizeWithContext`, `Synthesize`,
`voiceXML`, `New`, the `AzureCSTextToSpeech` struct and the `Region` enum) and
`properties.go` (the `AudioOutput`, `Gender`, `Locale` enums and the
voice-list fetching / `buildVoiceToRegionMap` code).

HTTP is modelled by passing the outcome of the network call (`client.Do`)
explicitly: a network-level failure is `Except.error`, a reply is an
`HTTPResponse` record with its status code, status line and body.  Bodies are
modelled as `String` (Go reads them with `ioutil.ReadAll` and either stores
them, returns them verbatim, or JSON-decodes them).  Go `error` values are
modelled as the `String` produced by `fmt.Errorf`.
-/

namespace AzureTTS

/-- Outcome of a successful `client.Do`: the HTTP status code
(`response.StatusCode`), the status line (`response.Status`) and the full
response body as read by `ioutil.ReadAll`. -/
structure HTTPResponse where
  statusCode : Nat
  status : String
  body : String
  deriving DecidableEq, Repr

/-- An outgoing HTTP request as built by `http.NewRequest` /
`http.NewRequestWithContext` together with the `Header.Set` calls: method,
target URL, body and headers in the order the source sets them. -/
structure HTTPRequest where
  method : String
  url : String
  body : String
  headers : List (String × String)
  deriving DecidableEq, Repr

/-- The `Gender` enum of `properties.go` (`GenderMale`, `GenderFemale`). -/
inductive Gender where
  | GenderMale
  | GenderFemale
  deriving DecidableEq, Repr

/-- The enumer-generated (`go:generate enumer -type=Gender -linecomment`)
`Gender.String`, reading the line comments of `properties.go`:
`Male`, `Female`. -/
def genderString : Gender → String
  | .GenderMale => "Male"
  | .GenderFemale => "Female"

/-- The `Locale` enum of `properties.go` (55 locales). -/
inductive Locale where
  | LocaleArEG
  | LocaleArSA
  | LocaleBgBG
  | LocaleCaES
  | LocaleCsCZ
  | LocaleDaDK
  | LocaleDeAT
  | LocaleDeCH
  | LocaleDeDE
  | LocaleElGR
  | LocaleEnAU
  | LocaleEnCA
  | LocaleEnGB
  | LocaleEnIE
  | LocaleEnIN
  | LocaleEnUS
  | LocaleEsES
  | LocaleEsMX
  | LocaleEtEE
  | LocaleFiFI
  | LocaleFrCA
  | LocaleFrCH
  | LocaleFrFR
  | LocaleGaIE
  | LocaleHeIL
  | LocaleHiIN
  | LocaleHrHR
  | LocaleHuHU
  | LocaleIdID
  | LocaleItIT
  | LocaleJaJP
  | LocaleKoKR
  | LocaleLtLT
  | LocaleLvLV
  | LocaleMtMT
  | LocaleMrIN
  | LocaleMsMY
  | LocaleNbNO
  | LocaleNlNL
  | LocalePlPL
  | LocalePtBR
  | LocalePtPT
  | LocaleRoRO
  | LocaleRuRU
  | LocaleSkSK
  | LocaleSlSI
  | LocaleSvSE
  | LocaleTaIN
  | LocaleTeIN
  | LocaleThTH
  | LocaleTrTR
  | LocaleViVN
  | LocaleZhCN
  | LocaleZhHK
  | LocaleZhTW
  deriving DecidableEq, Repr

/-- The enumer-generated (`go:generate enumer -type=Locale -linecomment`)
`Locale.String`, reading the line comments of `properties.go`. -/
def localeString : Locale → String
  | .LocaleArEG => "ar-EG"
  | .LocaleArSA => "ar-SA"
  | .LocaleBgBG => "bg-BG"
  | .LocaleCaES => "ca-ES"
  | .LocaleCsCZ => "cs-CZ"
  | .LocaleDaDK => "da-DK"
  | .LocaleDeAT => "de-AT"
  | .LocaleDeCH => "de-CH"
  | .LocaleDeDE => "de-DE"
  | .LocaleElGR => "el-GR"
  | .LocaleEnAU => "en-AU"
  | .LocaleEnCA => "en-CA"
  | .LocaleEnGB => "en-GB"
  | .LocaleEnIE => "en-IE"
  | .LocaleEnIN => "en-IN"
  | .LocaleEnUS => "en-US"
  | .LocaleEsES => "es-ES"
  | .LocaleEsMX => "es-MX"
  | .LocaleEtEE => "et-EE"
  | .LocaleFiFI => "fi-FI"
  | .LocaleFrCA => "fr-CA"
  | .LocaleFrCH => "fr-CH"
  | .LocaleFrFR => "fr-FR"
  | .LocaleGaIE => "ga-IE"
  | .LocaleHeIL => "he-IL"
  | .LocaleHiIN => "hi-IN"
  | .LocaleHrHR => "hr-HR"
  | .LocaleHuHU => "hu-HU"
  | .LocaleIdID => "id-ID"
  | .LocaleItIT => "it-IT"
  | .LocaleJaJP => "ja-JP"
  | .LocaleKoKR => "ko-KR"
  | .LocaleLtLT => "lt-LT"
  | .LocaleLvLV => "lv-LV"
  | .LocaleMtMT => "mt-MT"
  | .LocaleMrIN => "mr-IN"
  | .LocaleMsMY => "ms-MY"
  | .LocaleNbNO => "nb-NO"
  | .LocaleNlNL => "nl-NL"
  | .LocalePlPL => "pl-PL"
  | .LocalePtBR => "pt-BR"
  | .LocalePtPT => "pt-PT"
  | .LocaleRoRO => "ro-RO"
  | .LocaleRuRU => "ru-RU"
  | .LocaleSkSK => "sk-SK"
  | .LocaleSlSI => "sl-SI"
  | .LocaleSvSE => "sv-SE"
  | .LocaleTaIN => "ta-IN"
  | .LocaleTeIN => "te-IN"
  | .LocaleThTH => "th-TH"
  | .LocaleTrTR => "tr-TR"
  | .LocaleViVN => "vi-VN"
  | .LocaleZhCN => "zh-CN"
  | .LocaleZhHK => "zh-HK"
  | .LocaleZhTW => "zh-TW"

/-- The `Region` enum of the main package file (20 Azure regions). -/
inductive Region where
  | RegionAustraliaEast
  | RegionBrazilSouth
  | RegionCanadaCentral
  | RegionCentralUS
  | RegionEastAsia
  | RegionEastUS
  | RegionEastUS2
  | RegionFranceCentral
  | RegionIndiaCentral
  | RegionJapanEast
  | RegionJapanWest
  | RegionKoreaCentral
  | RegionNorthCentralUS
  | RegionNorthEurope
  | RegionSouthCentralUS
  | RegionSoutheastAsia
  | RegionUKSouth
  | RegionWestEurope
  | RegionWestUS
  | RegionWestUS2
  deriving DecidableEq, Repr

/-- `Region.String` on the declared constants: the array literal indexed by
the region's ordinal, written out per constructor. -/
def regionString : Region → String
  | .RegionAustraliaEast => "australiaeast"
  | .RegionBrazilSouth => "brazilsouth"
  | .RegionCanadaCentral => "canadacentral"
  | .RegionCentralUS => "centralus"
  | .RegionEastAsia => "eastasia"
  | .RegionEastUS => "eastus"
  | .RegionEastUS2 => "eastus2"
  | .RegionFranceCentral => "francecentral"
  | .RegionIndiaCentral => "indiacentral"
  | .RegionJapanEast => "japaneast"
  | .RegionJapanWest => "japanwest"
  | .RegionKoreaCentral => "koreacentral"
  | .RegionNorthCentralUS => "northcentralus"
  | .RegionNorthEurope => "northeurope"
  | .RegionSouthCentralUS => "southcentralus"
  | .RegionSoutheastAsia => "southeastasia"
  | .RegionUKSouth => "uksouth"
  | .RegionWestEurope => "westeurope"
  | .RegionWestUS => "westus"
  | .RegionWestUS2 => "westus2"

/-- The backing array of `AudioOutput.String` in `properties.go`, in
declaration order (indices 0–13 of the `AudioOutput` iota constants). -/
def audioOutputStrings : List String :=
  ["riff-8khz-8bit-mono-mulaw",
   "riff-16khz-16bit-mono-pcm",
   "riff-16khz-16kbps-mono-siren",
   "riff-24khz-16bit-mono-pcm",
   "raw-8khz-8bit-mono-mulaw",
   "raw-16khz-16bit-mono-pcm",
   "raw-24khz-16bit-mono-pcm",
   "ssml-16khz-16bit-mono-tts",
   "audio-16khz-16kbps-mono-siren",
   "audio-16khz-32kbitrate-mono-mp3",
   "audio-16khz-64kbitrate-mono-mp3",
   "audio-16khz-128kbitrate-mono-mp3",
   "audio-24khz-48kbitrate-mono-mp3",
   "audio-24khz-96kbitrate-mono-mp3"]

/-- `AudioOutput.String` viewed at an arbitrary integer value of the
`AudioOutput` int type: in-range indices return the table entry, any other
integer makes the slice indexing panic (modelled as `none`). -/
def audioOutputString (a : Int) : Option String :=
  if 0 ≤ a then audioOutputStrings.get? a.toNat else none

/-- The backing array of `Region.String`, in declaration order (indices
0–19 of the `Region` iota constants). -/
def regionStrings : List String :=
  ["australiaeast", "brazilsouth", "canadacentral", "centralus",
   "eastasia", "eastus", "eastus2", "francecentral", "indiacentral",
   "japaneast", "japanwest", "koreacentral", "northcentralus",
   "northeurope", "southcentralus", "southeastasia", "uksouth",
   "westeurope", "westus", "westus2"]

/-- `Region.String` indexed at an arbitrary integer value of the `Region`
int type; out-of-range indexing panics (`none`). -/
def regionStringAt (r : Int) : Option String :=
  if 0 ≤ r then regionStrings.get? r.toNat else none

/-- `fmt.Sprint(audioOutput)` as used for the `X-Microsoft-OutputFormat`
header: `fmt` invokes the `String` method of the `AudioOutput` Stringer and,
per the documented behavior of package `fmt`, recovers a panic raised inside
a `String` method, substituting a `%!v(PANIC=...)` placeholder instead of
propagating the panic. -/
def fmtSprintAudioOutput (a : Int) : String :=
  match audioOutputString a with
  | some s => s
  | none => "%!v(PANIC=String method: runtime error: index out of range)"

/-- The `voiceType` enum of `properties.go` (`voiceStandard`, `voiceNeural`). -/
inductive voiceType where
  | voiceStandard
  | voiceNeural
  deriving DecidableEq, Repr

/-- One element of the JSON array returned by the voice-list endpoint
(`regionVoiceListResponse` in `properties.go`). -/
structure regionVoiceListResponse where
  name : String
  shortName : String
  gender : Gender
  locale : Locale
  sampleRateHertz : String
  vType : voiceType
  deriving DecidableEq, Repr

/-- The `supportedVoices` key struct of `properties.go`: a (gender, locale)
pair used as the voice-map key. -/
structure supportedVoices where
  gender : Gender
  locale : Locale
  deriving DecidableEq, Repr

/-- `RegionVoiceMap`, the Go map from `supportedVoices` keys to voice short
names, modelled extensionally as a lookup function. -/
def RegionVoiceMap : Type := supportedVoices → Option String

/-- The empty Go map (`make(map[supportedVoices]string)`). -/
def mapEmpty : RegionVoiceMap := fun _ => none

/-- Go map assignment `m[k] = v`: later writes to the same key overwrite. -/
def mapInsert (m : RegionVoiceMap) (k : supportedVoices) (v : String) :
    RegionVoiceMap :=
  fun k2 => if k2 = k then some v else m k2

/-- The `AzureCSTextToSpeech` client struct.  The
`TokenRefreshDoneCh chan bool` field is represented separately by the
event-trace model of `startRefresher` below; the remaining fields are carried
verbatim. -/
structure AzureCSTextToSpeech where
  accessToken : String
  RegionVoiceMap : RegionVoiceMap
  SubscriptionKey : String
  tokenRefreshURL : String
  voiceServiceListURL : String
  textToSpeechURL : String

/-- `refreshToken`: POSTs to the token endpoint with the subscription key
header; `doResult` is the outcome of `client.Do`.  Returns the updated client
together with the Go `error` (`none` = nil).  On a non-OK status the error
carries the status line; on OK the response body is stored verbatim as
`accessToken`. -/
def refreshToken (az : AzureCSTextToSpeech)
    (doResult : Except String HTTPResponse) :
    AzureCSTextToSpeech × Option String :=
  match doResult with
  | .error e => (az, some e)
  | .ok response =>
    if response.statusCode ≠ 200 then
      (az, some ("unexpected status code; received http status=" ++
        response.status))
    else
      ({ az with accessToken := response.body }, none)

/-- `voiceXML` renders the SSML payload by substituting into
`TTSApiXMLPayload` (Go `fmt.Sprintf` with `%s` verbs, which render `Locale`
and `Gender` through their enumer-generated `String` methods). -/
def voiceXML (speechText description : String) (locale : Locale)
    (gender : Gender) : String :=
  "<speak version='1.0' xml:lang='" ++ localeString locale ++
    "'><voice xml:lang='" ++ localeString locale ++ "' xml:gender='" ++
    genderString gender ++ "' name='" ++ description ++ "'>" ++
    speechText ++ "</voice></speak>"

/-- `SynthesizeWithContext`.  The network layer is a `transport` function
from the built request to the outcome of `client.Do`; the second component of
the result collects every request handed to the transport, so that "no
network call is made" is observable as the empty list.  The first component
is the Go `([]byte, error)` pair as an `Except`. -/
def SynthesizeWithContext (az : AzureCSTextToSpeech) (speechText : String)
    (locale : Locale) (gender : Gender) (audioOutput : Int)
    (transport : HTTPRequest → Except String HTTPResponse) :
    Except String String × List HTTPRequest :=
  match az.RegionVoiceMap ⟨gender, locale⟩ with
  | none =>
    (.error ("unable to to locate RegionVoiceMap\x7bregion=" ++
      localeString locale ++ ", gender=" ++ genderString gender ++ "\x7d pair"),
     [])
  | some description =>
    let v := voiceXML speechText description locale gender
    let request : HTTPRequest :=
      { method := "POST"
        url := az.textToSpeechURL
        body := v
        headers :=
          [("X-Microsoft-OutputFormat", fmtSprintAudioOutput audioOutput),
           ("Content-Type", "application/ssml+xml"),
           ("Authorization", "Bearer " ++ az.accessToken),
           ("User-Agent", "azuretts")] }
    match transport request with
    | .error e => (.error e, [request])
    | .ok response =>
      if response.statusCode = 200 then
        (.ok response.body, [request])
      else if response.statusCode = 400 then
        (.error (toString response.statusCode ++
          " - A required parameter is missing, empty, or null. Or, the value passed to either a required or optional parameter is invalid. A common issue is a header that is too long"),
         [request])
      else if response.statusCode = 401 then
        (.error (toString response.statusCode ++
          " - The request is not authorized. Check to make sure your subscription key or token is valid and in the correct region"),
         [request])
      else if response.statusCode = 413 then
        (.error (toString response.statusCode ++
          " - The SSML input is longer than 1024 characters"), [request])
      else if response.statusCode = 415 then
        (.error (toString response.statusCode ++
          " - It's possible that the wrong Content-Type was provided. Content-Type should be set to application/ssml+xml"),
         [request])
      else if response.statusCode = 429 then
        (.error (toString response.statusCode ++
          " - You have exceeded the quota or rate of requests allowed for your subscription"),
         [request])
      else if response.statusCode = 502 then
        (.error (toString response.statusCode ++
          " - Network or server-side issue. May also indicate invalid headers"),
         [request])
      else
        (.error (toString response.statusCode ++
          " - received unexpected HTTP status code"), [request])

/-- `fetchVoiceList`: GET on the voice-list endpoint with bearer auth;
`doResult` is the outcome of `client.Do` and `decode` is the
`json.NewDecoder(...).Decode` step on the response body. -/
def fetchVoiceList (az : AzureCSTextToSpeech)
    (doResult : Except String HTTPResponse)
    (decode : String → Except String (List regionVoiceListResponse)) :
    Except String (List regionVoiceListResponse) :=
  match doResult with
  | .error e => .error e
  | .ok response =>
    if response.statusCode = 200 then
      match decode response.body with
      | .error e =>
        .error ("unable to decode voice list response body, " ++ e)
      | .ok r => .ok r
    else if response.statusCode = 400 then
      .error (toString response.statusCode ++
        " - A required parameter is missing, empty, or null. Or, the value passed to either a required or optional parameter is invalid. A common issue is a header that is too long")
    else if response.statusCode = 401 then
      .error (toString response.statusCode ++
        " - The request is not authorized. Check to make sure your subscription key or token is valid and in the correct region")
    else if response.statusCode = 429 then
      .error (toString response.statusCode ++
        " - You have exceeded the quota or rate of requests allowed for your subscription")
    else if response.statusCode = 502 then
      .error (toString response.statusCode ++
        " - Network or server-side issue. May also indicate invalid headers")
    else
      .error (toString response.statusCode ++
        " - unexpected response code from voice list API")

/-- `buildVoiceToRegionMap`: fetch the voice list, then insert every entry
whose `VoiceType` is `voiceStandard` into a fresh map keyed by
`supportedVoices{Gender, Locale}` with the entry's `ShortName` as value, in
list order (the Go `for _, x := range v` loop). -/
def buildVoiceToRegionMap (az : AzureCSTextToSpeech)
    (doResult : Except String HTTPResponse)
    (decode : String → Except String (List regionVoiceListResponse)) :
    Except String RegionVoiceMap :=
  match fetchVoiceList az doResult decode with
  | .error e => .error e
  | .ok v =>
    .ok (v.foldl
      (fun m x =>
        if x.vType = voiceType.voiceStandard then
          mapInsert m ⟨x.gender, x.locale⟩ x.shortName
        else m)
      mapEmpty)

/-- The client value `New` builds before the initial token fetch: the
subscription key and the three region-templated URLs
(`fmt.Sprintf(textToSpeechAPI, region)` etc.). -/
def initClient (subscriptionKey : String) (region : Region) :
    AzureCSTextToSpeech :=
  { accessToken := ""
    RegionVoiceMap := mapEmpty
    SubscriptionKey := subscriptionKey
    tokenRefreshURL := "https://" ++ regionString region ++
      ".api.cognitive.microsoft.com/sts/v1.0/issueToken"
    voiceServiceListURL := "https://" ++ regionString region ++
      ".tts.speech.microsoft.com/cognitiveservices/voices/list"
    textToSpeechURL := "https://" ++ regionString region ++
      ".tts.speech.microsoft.com/cognitiveservices/v1" }

/-- `New`: build the client, run the initial `refreshToken` (fatal on
failure, wrapped as "failed to fetch initial token"), then
`buildVoiceToRegionMap` (fatal on failure, wrapped as "unable to fetch
voice-map"), and return the ready client.  `tokenDo` and `voiceDo` are the
outcomes of the two network calls; `decode` is the JSON decode step.  The Go
`(az, nil)` / `(nil, err)` pair is the `Except`.  (`startRefresher` is
modelled separately as `runRefresher`.) -/
def New (subscriptionKey : String) (region : Region)
    (tokenDo : Except String HTTPResponse)
    (voiceDo : Except String HTTPResponse)
    (decode : String → Except String (List regionVoiceListResponse)) :
    Except String AzureCSTextToSpeech :=
  let az := initClient subscriptionKey region
  match refreshToken az tokenDo with
  | (_, some e) => .error ("failed to fetch initial token, " ++ e)
  | (az1, none) =>
    match buildVoiceToRegionMap az1 voiceDo decode with
    | .error e => .error ("unable to fetch voice-map, " ++ e)
    | .ok m => .ok { az1 with RegionVoiceMap := m }

/-- `Synthesize` wraps the call in a 30-second timeout context and directs
to `SynthesizeWithContext`; the timeout is part of the transport outcome
here, so the delegation is the identity on the modelled state. -/
def Synthesize (az : AzureCSTextToSpeech) (speechText : String)
    (locale : Locale) (gender : Gender) (audioOutput : Int)
    (transport : HTTPRequest → Except String HTTPResponse) :
    Except String String × List HTTPRequest :=
  SynthesizeWithContext az speechText locale gender audioOutput transport

/-- An event observed by the `startRefresher` goroutine's `select` loop:
either the 9-minute ticker fires (carrying the outcome of the
`refreshToken` network call it triggers) or a value arrives on the `done`
channel. -/
inductive RefreshEvent where
  | tick (doResult : Except String HTTPResponse)
  | stop

/-- The `startRefresher` loop run over a finite trace of events, returning
the final client state and the number of token-endpoint calls performed.  A
`tick` runs `refreshToken` (its error is only logged) and continues with the
rest of the trace; a `stop` (a value on the `done` channel) returns from the
goroutine, so the remainder of the trace is never examined. -/
def runRefresher (az : AzureCSTextToSpeech) :
    List RefreshEvent → AzureCSTextToSpeech × Nat
  | [] => (az, 0)
  | RefreshEvent.stop :: _ => (az, 0)
  | RefreshEvent.tick r :: rest =>
    let az1 := (refreshToken az r).1
    let p := runRefresher az1 rest
    (p.1, p.2 + 1)

/-- A concrete client value used to instantiate witness statements. -/
def azW : AzureCSTextToSpeech :=
  { accessToken := "oldTok"
    RegionVoiceMap := mapEmpty
    SubscriptionKey := "ThisIsMySubscriptionKeyAndToBeToken"
    tokenRefreshURL := "https://westus2.api.cognitive.microsoft.com/sts/v1.0/issueToken"
    voiceServiceListURL := "https://westus2.tts.speech.microsoft.com/cognitiveservices/voices/list"
    textToSpeechURL := "https://westus2.tts.speech.microsoft.com/cognitiveservices/v1" }

/-- C1: when the token endpoint replies with HTTP 200, `refreshToken`
returns a nil error and stores the response body verbatim as the client's
`accessToken`; in particular, if the body echoes the subscription key the
stored token equals the subscription key. -/
theorem refreshToken_ok (az : AzureCSTextToSpeech) (resp : HTTPResponse)
    (h : resp.statusCode = 200) :
    (refreshToken az (Except.ok resp)).2 = none ∧
    (refreshToken az (Except.ok resp)).1.accessToken = resp.body ∧
    (refreshToken az (Except.ok resp)).1 =
      { az with accessToken := resp.body } ∧
    (resp.body = az.SubscriptionKey →
      (refreshToken az (Except.ok resp)).1.accessToken =
        az.SubscriptionKey) := by
  refine ⟨?_, ?_, ?_, ?_⟩ <;> simp [refreshToken, h]

/-- Closed instance of `refreshToken_ok`: the test-server scenario where the
endpoint echoes the subscription key. -/
theorem refreshToken_ok_witness :
    (refreshToken azW
      (Except.ok ⟨200, "200 OK", "ThisIsMySubscriptionKeyAndToBeToken"⟩)).1.accessToken =
      "ThisIsMySubscriptionKeyAndToBeToken" :=
  (refreshToken_ok azW ⟨200, "200 OK", "ThisIsMySubscriptionKeyAndToBeToken"⟩
    rfl).2.1

/-- C2: whenever `refreshToken` returns a non-nil error (network failure or
non-OK status), the client is left unchanged; in particular the previously
stored `accessToken` is untouched. -/
theorem refreshToken_error_preserves_client (az : AzureCSTextToSpeech)
    (r : Except String HTTPResponse) (e : String)
    (h : (refreshToken az r).2 = some e) :
    (refreshToken az r).1 = az ∧
    (refreshToken az r).1.accessToken = az.accessToken := by
  cases r with
  | error e2 => exact ⟨rfl, rfl⟩
  | ok resp =>
    by_cases h2 : resp.statusCode = 200
    · simp [refreshToken, h2] at h
    · refine ⟨?_, ?_⟩ <;> simp [refreshToken, h2]

/-- Closed instance of `refreshToken_error_preserves_client`: a network
failure leaves the stored token as it was. -/
theorem refreshToken_error_preserves_client_witness :
    (refreshToken azW (Except.error "connection refused")).1.accessToken =
      "oldTok" :=
  (refreshToken_error_preserves_client azW (Except.error "connection refused")
    "connection refused" rfl).2

/-- C4: for any trace in which a `stop` signal (a value on the `done`
channel) arrives after a prefix `pre` of ticks, the refresh loop performs
exactly one token-endpoint call per tick of `pre` — even for ticks whose
`refreshToken` outcome is an error, so a failed refresh never terminates the
loop — and performs no call at all for the arbitrary events `post` after the
signal: the loop returns permanently. -/
theorem startRefresher_stop (az : AzureCSTextToSpeech)
    (pre post : List RefreshEvent)
    (h : ∀ e ∈ pre, e ≠ RefreshEvent.stop) :
    runRefresher az (pre ++ RefreshEvent.stop :: post) =
      ((runRefresher az pre).1, pre.length) := by
  induction pre generalizing az with
  | nil => simp [runRefresher]
  | cons x rest ih =>
    cases x with
    | stop => exact absurd rfl (h _ (List.mem_cons_self _ _))
    | tick r =>
      have h2 : ∀ e ∈ rest, e ≠ RefreshEvent.stop :=
        fun e he => h e (List.mem_cons_of_mem _ he)
      simp [runRefresher, ih _ h2]

/-- Closed instance of `startRefresher_stop`: one failing tick before the
shutdown signal, one tick after it — exactly one call is made. -/
theorem startRefresher_stop_witness :
    runRefresher azW
      [RefreshEvent.tick (Except.error "boom"), RefreshEvent.stop,
       RefreshEvent.tick (Except.ok ⟨200, "200 OK", "newTok"⟩)] =
      ((runRefresher azW [RefreshEvent.tick (Except.error "boom")]).1, 1) :=
  startRefresher_stop azW [RefreshEvent.tick (Except.error "boom")]
    [RefreshEvent.tick (Except.ok ⟨200, "200 OK", "newTok"⟩)]
    (by intro e he; rw [List.mem_singleton] at he; subst he; intro hc
        exact RefreshEvent.noConfusion hc)

/-- A concrete voice map for witnesses, seeded like the unit test:
`{GenderMale, LocaleDeCH} -> "SYS2064"`. -/
def azSynth : AzureCSTextToSpeech :=
  { azW with RegionVoiceMap :=
      mapInsert mapEmpty ⟨Gender.GenderMale, Locale.LocaleDeCH⟩ "SYS2064" }

/-- Reduction of `SynthesizeWithContext` when the voice lookup succeeds and
the transport replies with `resp`: the result is the status-code switch of
the source, applied to `resp`.  Shared by the success- and error-path
theorems. -/
theorem synthFstReduce (az : AzureCSTextToSpeech) (s : String) (l : Locale)
    (g : Gender) (a : Int)
    (transport : HTTPRequest → Except String HTTPResponse) (desc : String)
    (resp : HTTPResponse) (hmap : az.RegionVoiceMap ⟨g, l⟩ = some desc)
    (ht : ∀ req, transport req = Except.ok resp) :
    (SynthesizeWithContext az s l g a transport).1 =
      (if resp.statusCode = 200 then Except.ok resp.body
       else if resp.statusCode = 400 then Except.error (toString resp.statusCode ++
         " - A required parameter is missing, empty, or null. Or, the value passed to either a required or optional parameter is invalid. A common issue is a header that is too long")
       else if resp.statusCode = 401 then Except.error (toString resp.statusCode ++
         " - The request is not authorized. Check to make sure your subscription key or token is valid and in the correct region")
       else if resp.statusCode = 413 then Except.error (toString resp.statusCode ++
         " - The SSML input is longer than 1024 characters")
       else if resp.statusCode = 415 then Except.error (toString resp.statusCode ++
         " - It's possible that the wrong Content-Type was provided. Content-Type should be set to application/ssml+xml")
       else if resp.statusCode = 429 then Except.error (toString resp.statusCode ++
         " - You have exceeded the quota or rate of requests allowed for your subscription")
       else if resp.statusCode = 502 then Except.error (toString resp.statusCode ++
         " - Network or server-side issue. May also indicate invalid headers")
       else Except.error (toString resp.statusCode ++
         " - received unexpected HTTP status code")) := by
  simp only [SynthesizeWithContext, hmap, ht]
  split_ifs <;> rfl

/-- C5: when the (locale, gender) pair is absent from the client's voice
map, both `SynthesizeWithContext` and `Synthesize` return a nil payload and
an error naming the locale and the gender, and hand no request at all to
the network layer (the issued-request list is empty) — for every transport. -/
theorem SynthesizeWithContext_absent_pair (az : AzureCSTextToSpeech)
    (s : String) (l : Locale) (g : Gender) (a : Int)
    (transport : HTTPRequest → Except String HTTPResponse)
    (h : az.RegionVoiceMap ⟨g, l⟩ = none) :
    SynthesizeWithContext az s l g a transport =
      (Except.error ("unable to to locate RegionVoiceMap\x7bregion=" ++
        localeString l ++ ", gender=" ++ genderString g ++ "\x7d pair"), []) ∧
    Synthesize az s l g a transport =
      SynthesizeWithContext az s l g a transport := by
  refine ⟨?_, rfl⟩
  simp only [SynthesizeWithContext, h]

/-- Closed instance of `SynthesizeWithContext_absent_pair`: the unit-test
scenario (`LocaleDeCH`, `GenderFemale` missing from the seeded map), with a
transport that would fail the test if it were ever invoked. -/
theorem SynthesizeWithContext_absent_pair_witness :
    SynthesizeWithContext azSynth "test-speech" Locale.LocaleDeCH
      Gender.GenderFemale 0 (fun _ => Except.error "no call expected") =
      (Except.error
        "unable to to locate RegionVoiceMap\x7bregion=de-CH, gender=Female\x7d pair",
       []) :=
  ((SynthesizeWithContext_absent_pair azSynth "test-speech" Locale.LocaleDeCH
      Gender.GenderFemale 0 (fun _ => Except.error "no call expected")
      rfl).1).trans (by rfl)

/-- C6: when the voice lookup succeeds and the synthesis endpoint replies
HTTP 200, `SynthesizeWithContext` (and `Synthesize`, which directs to it)
returns exactly the full response body with a nil error. -/
theorem SynthesizeWithContext_ok_body (az : AzureCSTextToSpeech) (s : String)
    (l : Locale) (g : Gender) (a : Int)
    (transport : HTTPRequest → Except String HTTPResponse) (desc : String)
    (resp : HTTPResponse) (hmap : az.RegionVoiceMap ⟨g, l⟩ = some desc)
    (ht : ∀ req, transport req = Except.ok resp)
    (h200 : resp.statusCode = 200) :
    (SynthesizeWithContext az s l g a transport).1 = Except.ok resp.body ∧
    (Synthesize az s l g a transport).1 = Except.ok resp.body := by
  have key := synthFstReduce az s l g a transport desc resp hmap ht
  rw [h200] at key
  simp only [if_pos rfl] at key
  exact ⟨key, key⟩

/-- Closed instance of `SynthesizeWithContext_ok_body`: the unit-test
round-trip where the server echoes `"SYS4096"`. -/
theorem SynthesizeWithContext_ok_body_witness :
    (SynthesizeWithContext azSynth "SYS4096" Locale.LocaleDeCH
      Gender.GenderMale 0
      (fun _ => Except.ok ⟨200, "200 OK", "SYS4096"⟩)).1 =
      Except.ok "SYS4096" :=
  (SynthesizeWithContext_ok_body azSynth "SYS4096" Locale.LocaleDeCH
    Gender.GenderMale 0 (fun _ => Except.ok ⟨200, "200 OK", "SYS4096"⟩)
    "SYS2064" ⟨200, "200 OK", "SYS4096"⟩ rfl (fun _ => rfl) rfl).1

/-- C7: for every non-OK status from the synthesis endpoint the call fails,
the error message starts with the numeric status code, the documented codes
400 / 401 / 413 / 415 / 429 / 502 each map to their own distinguishing
message, and every other status falls back to the generic message (also
carrying its numeric code). -/
theorem SynthesizeWithContext_status_mapping (az : AzureCSTextToSpeech)
    (s : String) (l : Locale) (g : Gender) (a : Int)
    (transport : HTTPRequest → Except String HTTPResponse) (desc : String)
    (resp : HTTPResponse) (hmap : az.RegionVoiceMap ⟨g, l⟩ = some desc)
    (ht : ∀ req, transport req = Except.ok resp)
    (hne : resp.statusCode ≠ 200) :
    (∃ rest, (SynthesizeWithContext az s l g a transport).1 =
      Except.error (toString resp.statusCode ++ (" - " ++ rest))) ∧
    (resp.statusCode = 400 → (SynthesizeWithContext az s l g a transport).1 =
      Except.error "400 - A required parameter is missing, empty, or null. Or, the value passed to either a required or optional parameter is invalid. A common issue is a header that is too long") ∧
    (resp.statusCode = 401 → (SynthesizeWithContext az s l g a transport).1 =
      Except.error "401 - The request is not authorized. Check to make sure your subscription key or token is valid and in the correct region") ∧
    (resp.statusCode = 413 → (SynthesizeWithContext az s l g a transport).1 =
      Except.error "413 - The SSML input is longer than 1024 characters") ∧
    (resp.statusCode = 415 → (SynthesizeWithContext az s l g a transport).1 =
      Except.error "415 - It's possible that the wrong Content-Type was provided. Content-Type should be set to application/ssml+xml") ∧
    (resp.statusCode = 429 → (SynthesizeWithContext az s l g a transport).1 =
      Except.error "429 - You have exceeded the quota or rate of requests allowed for your subscription") ∧
    (resp.statusCode = 502 → (SynthesizeWithContext az s l g a transport).1 =
      Except.error "502 - Network or server-side issue. May also indicate invalid headers") ∧
    (resp.statusCode ∉ ([400, 401, 413, 415, 429, 502] : List Nat) →
      (SynthesizeWithContext az s l g a transport).1 =
        Except.error (toString resp.statusCode ++
          " - received unexpected HTTP status code")) := by
  have key := synthFstReduce az s l g a transport desc resp hmap ht
  refine ⟨?_, ?_, ?_, ?_, ?_, ?_, ?_, ?_⟩
  case refine_2 => intro hc; rw [key, hc]; try rfl
  case refine_3 => intro hc; rw [key, hc]; try rfl
  case refine_4 => intro hc; rw [key, hc]; try rfl
  case refine_5 => intro hc; rw [key, hc]; try rfl
  case refine_6 => intro hc; rw [key, hc]; try rfl
  case refine_7 => intro hc; rw [key, hc]; try rfl
  case refine_8 =>
    intro hc
    simp only [List.mem_cons, List.not_mem_nil, or_false, not_or] at hc
    obtain ⟨h400, h401, h413, h415, h429, h502⟩ := hc
    rw [key]
    simp only [if_neg hne, if_neg h400, if_neg h401, if_neg h413,
      if_neg h415, if_neg h429, if_neg h502]
  case refine_1 =>
    rw [key]
    by_cases h400 : resp.statusCode = 400
    · exact ⟨"A required parameter is missing, empty, or null. Or, the value passed to either a required or optional parameter is invalid. A common issue is a header that is too long",
        by rw [h400]; rfl⟩
    by_cases h401 : resp.statusCode = 401
    · exact ⟨"The request is not authorized. Check to make sure your subscription key or token is valid and in the correct region",
        by rw [h401]; rfl⟩
    by_cases h413 : resp.statusCode = 413
    · exact ⟨"The SSML input is longer than 1024 characters", by rw [h413]; rfl⟩
    by_cases h415 : resp.statusCode = 415
    · exact ⟨"It's possible that the wrong Content-Type was provided. Content-Type should be set to application/ssml+xml",
        by rw [h415]; rfl⟩
    by_cases h429 : resp.statusCode = 429
    · exact ⟨"You have exceeded the quota or rate of requests allowed for your subscription",
        by rw [h429]; rfl⟩
    by_cases h502 : resp.statusCode = 502
    · exact ⟨"Network or server-side issue. May also indicate invalid headers",
        by rw [h502]; rfl⟩
    · exact ⟨"received unexpected HTTP status code",
        by simp only [if_neg hne, if_neg h400, if_neg h401, if_neg h413,
             if_neg h415, if_neg h429, if_neg h502]; rfl⟩

/-- Closed instance of `SynthesizeWithContext_status_mapping`: a 401 reply
maps to the unauthorized message carrying its status code. -/
theorem SynthesizeWithContext_status_mapping_witness :
    (SynthesizeWithContext azSynth "SYS4096" Locale.LocaleDeCH
      Gender.GenderMale 0
      (fun _ => Except.ok ⟨401, "401 Unauthorized", ""⟩)).1 =
      Except.error "401 - The request is not authorized. Check to make sure your subscription key or token is valid and in the correct region" :=
  (SynthesizeWithContext_status_mapping azSynth "SYS4096" Locale.LocaleDeCH
    Gender.GenderMale 0 (fun _ => Except.ok ⟨401, "401 Unauthorized", ""⟩)
    "SYS2064" ⟨401, "401 Unauthorized", ""⟩ rfl (fun _ => rfl)
    (by decide)).2.2.1 rfl

/-- C3: `New` returns an error (and no client) when the initial token fetch
fails, wrapping the underlying failure; it returns an error when the
voice-list fetch fails, wrapping that failure; it returns the ready client
when both succeed; and a client is obtained exactly when both steps
succeed. -/
theorem New_construction (k : String) (reg : Region)
    (tokenDo voiceDo : Except String HTTPResponse)
    (decode : String → Except String (List regionVoiceListResponse)) :
    (∀ e, (refreshToken (initClient k reg) tokenDo).2 = some e →
      New k reg tokenDo voiceDo decode =
        Except.error ("failed to fetch initial token, " ++ e)) ∧
    (∀ e, (refreshToken (initClient k reg) tokenDo).2 = none →
      buildVoiceToRegionMap (refreshToken (initClient k reg) tokenDo).1
          voiceDo decode = Except.error e →
      New k reg tokenDo voiceDo decode =
        Except.error ("unable to fetch voice-map, " ++ e)) ∧
    (∀ m, (refreshToken (initClient k reg) tokenDo).2 = none →
      buildVoiceToRegionMap (refreshToken (initClient k reg) tokenDo).1
          voiceDo decode = Except.ok m →
      New k reg tokenDo voiceDo decode =
        Except.ok { (refreshToken (initClient k reg) tokenDo).1 with
          RegionVoiceMap := m }) ∧
    ((∃ c, New k reg tokenDo voiceDo decode = Except.ok c) ↔
      ((refreshToken (initClient k reg) tokenDo).2 = none ∧
       ∃ m, buildVoiceToRegionMap (refreshToken (initClient k reg) tokenDo).1
         voiceDo decode = Except.ok m)) := by
  rcases hp : refreshToken (initClient k reg) tokenDo with ⟨az1, err⟩
  refine ⟨?_, ?_, ?_, ?_⟩
  · intro e he
    have he2 : err = some e := he
    subst he2
    simp only [New]
    rw [hp]
  · intro e hnone hbuild
    have hn2 : err = none := hnone
    subst hn2
    have hb2 : buildVoiceToRegionMap az1 voiceDo decode = Except.error e :=
      hbuild
    simp only [New]
    rw [hp]
    show (match buildVoiceToRegionMap az1 voiceDo decode with
      | .error e => Except.error ("unable to fetch voice-map, " ++ e)
      | .ok m =>
        Except.ok { az1 with RegionVoiceMap := m }) = _
    rw [hb2]
  · intro m hnone hbuild
    have hn2 : err = none := hnone
    subst hn2
    have hb2 : buildVoiceToRegionMap az1 voiceDo decode = Except.ok m :=
      hbuild
    simp only [New]
    rw [hp]
    show (match buildVoiceToRegionMap az1 voiceDo decode with
      | .error e => Except.error ("unable to fetch voice-map, " ++ e)
      | .ok m =>
        Except.ok { az1 with RegionVoiceMap := m }) = _
    rw [hb2]
  · constructor
    · rintro ⟨c, hc⟩
      cases err with
      | some e =>
        have hNe : New k reg tokenDo voiceDo decode =
            Except.error ("failed to fetch initial token, " ++ e) := by
          simp only [New]; rw [hp]
        rw [hNe] at hc
        exact absurd hc (by intro hcc; exact Except.noConfusion hcc)
      | none =>
        refine ⟨rfl, ?_⟩
        rcases hb : buildVoiceToRegionMap az1 voiceDo decode with e | m
        · have hNe : New k reg tokenDo voiceDo decode =
              Except.error ("unable to fetch voice-map, " ++ e) := by
            simp only [New]
            rw [hp]
            show (match buildVoiceToRegionMap az1 voiceDo decode with
              | .error e => Except.error ("unable to fetch voice-map, " ++ e)
              | .ok m =>
                Except.ok { az1 with RegionVoiceMap := m }) = _
            rw [hb]
          rw [hNe] at hc
          exact absurd hc (by intro hcc; exact Except.noConfusion hcc)
        · exact ⟨m, rfl⟩
    · rintro ⟨hnone, m, hm⟩
      have hn2 : err = none := hnone
      subst hn2
      have hb2 : buildVoiceToRegionMap az1 voiceDo decode = Except.ok m := hm
      refine ⟨{ az1 with RegionVoiceMap := m }, ?_⟩
      simp only [New]
      rw [hp]
      show (match buildVoiceToRegionMap az1 voiceDo decode with
        | .error e => Except.error ("unable to fetch voice-map, " ++ e)
        | .ok m =>
          Except.ok { az1 with RegionVoiceMap := m }) = _
      rw [hb2]

/-- Closed instance of `New_construction`: when the token endpoint is
unreachable, `New` fails with the wrapped error and yields no client. -/
theorem New_construction_witness :
    New "SYS64738" Region.RegionWestUS2 (Except.error "connection refused")
      (Except.ok ⟨200, "200 OK", "[]"⟩) (fun _ => Except.ok []) =
      Except.error "failed to fetch initial token, connection refused" :=
  (New_construction "SYS64738" Region.RegionWestUS2
    (Except.error "connection refused") (Except.ok ⟨200, "200 OK", "[]"⟩)
    (fun _ => Except.ok [])).1 "connection refused" rfl

/-- The claim-side description of the built voice map, independent of the
fold: the value at key `k` is the `ShortName` of the last descriptor in list
order whose voice category is the standard type and whose (gender, locale)
pair equals `k`; `none` when no such descriptor exists (in particular when
only neural descriptors carry that key). -/
def lastStandardShortName (v : List regionVoiceListResponse)
    (k : supportedVoices) : Option String :=
  ((v.filter fun x =>
      decide (x.vType = voiceType.voiceStandard) &&
      decide ((⟨x.gender, x.locale⟩ : supportedVoices) = k)).getLast?).map
    (fun x => x.shortName)

/-- `getLast?` over a filtered cons, split on whether the head passes. -/
theorem getLastFilterCons {α : Type} (p : α → Bool) (x : α) (l : List α) :
    ((x :: l).filter p).getLast? =
      match (l.filter p).getLast? with
      | some y => some y
      | none => if p x then some x else none := by
  by_cases hp : p x = true
  · rw [List.filter_cons_of_pos hp]
    cases hl : l.filter p with
    | nil => simp [hp]
    | cons y ys =>
      rw [List.getLast?_cons_cons]
      have hne : (y :: ys : List α) ≠ [] := by simp
      rw [List.getLast?_eq_getLast_of_ne_nil hne]
  · have hp2 : p x = false := by simpa using hp
    rw [List.filter_cons_of_neg (by simp [hp2])]
    cases hl : (l.filter p).getLast? with
    | none => simp [hp2]
    | some y => rfl

/-- The `for _, x := range v` insertion loop of `buildVoiceToRegionMap`,
evaluated at a key: the last standard entry with that key wins, and the
starting map is consulted when no standard entry carries the key. -/
theorem voiceFoldLookup (k : supportedVoices)
    (v : List regionVoiceListResponse) (m : RegionVoiceMap) :
    (v.foldl (fun m x =>
        if x.vType = voiceType.voiceStandard then
          mapInsert m ⟨x.gender, x.locale⟩ x.shortName
        else m) m) k =
      match lastStandardShortName v k with
      | some s => some s
      | none => m k := by
  induction v generalizing m with
  | nil => simp [lastStandardShortName]
  | cons x rest ih =>
    rw [List.foldl_cons, ih]
    unfold lastStandardShortName
    rw [getLastFilterCons]
    cases hl : ((rest.filter fun x =>
        decide (x.vType = voiceType.voiceStandard) &&
        decide ((⟨x.gender, x.locale⟩ : supportedVoices) = k)).getLast?) with
    | some y => simp [lastStandardShortName, hl]
    | none =>
      simp only [lastStandardShortName, hl, Option.map_none']
      by_cases hstd : x.vType = voiceType.voiceStandard
      · by_cases hkey : (⟨x.gender, x.locale⟩ : supportedVoices) = k
        · subst hkey
          simp [hstd, mapInsert]
        · have hkey2 : ¬ k = (⟨x.gender, x.locale⟩ : supportedVoices) :=
            fun h => hkey h.symm
          simp [hstd, hkey, hkey2, mapInsert]
      · simp [hstd]

/-- C8: whenever the voice-list fetch yields the descriptor list `v`,
`buildVoiceToRegionMap` returns a map that, at every (gender, locale) key,
holds the short name of the last standard-type descriptor with that key in
list order (last write wins) and nothing otherwise — so neural descriptors
never contribute an entry. -/
theorem buildVoiceToRegionMap_standard_last_wins (az : AzureCSTextToSpeech)
    (doResult : Except String HTTPResponse)
    (decode : String → Except String (List regionVoiceListResponse))
    (v : List regionVoiceListResponse)
    (hfetch : fetchVoiceList az doResult decode = Except.ok v) :
    ∃ m, buildVoiceToRegionMap az doResult decode = Except.ok m ∧
      ∀ k, m k = lastStandardShortName v k := by
  refine ⟨v.foldl (fun m x =>
      if x.vType = voiceType.voiceStandard then
        mapInsert m ⟨x.gender, x.locale⟩ x.shortName
      else m) mapEmpty, ?_, ?_⟩
  · unfold buildVoiceToRegionMap
    rw [hfetch]
  · intro k
    rw [voiceFoldLookup]
    cases lastStandardShortName v k <;> simp [mapEmpty]

/-- A concrete three-descriptor voice list: two standard entries sharing the
(male, de-CH) key — the later must win — and one neural entry. -/
def vListW : List regionVoiceListResponse :=
  [⟨"Microsoft Server Speech Text to Speech Voice (de-CH, Karsten)",
    "de-CH-Karsten", Gender.GenderMale, Locale.LocaleDeCH, "24000",
    voiceType.voiceStandard⟩,
   ⟨"Microsoft Server Speech Text to Speech Voice (de-CH, Zweite)",
    "de-CH-Zweite", Gender.GenderMale, Locale.LocaleDeCH, "24000",
    voiceType.voiceStandard⟩,
   ⟨"Microsoft Server Speech Text to Speech Voice (en-US, JennyNeural)",
    "en-US-JennyNeural", Gender.GenderFemale, Locale.LocaleEnUS, "24000",
    voiceType.voiceNeural⟩]

/-- Closed instance of `buildVoiceToRegionMap_standard_last_wins` on
`vListW`, with the fetch hypothesis discharged by evaluation. -/
theorem buildVoiceToRegionMap_standard_last_wins_witness :
    ∃ m, buildVoiceToRegionMap azW (Except.ok ⟨200, "200 OK", "body"⟩)
        (fun _ => Except.ok vListW) = Except.ok m ∧
      ∀ k, m k = lastStandardShortName vListW k :=
  buildVoiceToRegionMap_standard_last_wins azW
    (Except.ok ⟨200, "200 OK", "body"⟩) (fun _ => Except.ok vListW) vListW
    rfl

/-- Associativity of string concatenation, used to regroup the rendered
template around the embedded text. -/
theorem strAppendAssoc (a b c : String) : a ++ b ++ c = a ++ (b ++ c) := by
  cases a with
  | mk da =>
    cases b with
    | mk db =>
      cases c with
      | mk dc =>
        show String.mk (da ++ db ++ dc) = String.mk (da ++ (db ++ dc))
        rw [List.append_assoc]

/-- C9: `voiceXML` is a total pure function of its arguments: its output is
never empty, contains the supplied speech text verbatim (unescaped, as a
contiguous segment), and carries the resolved voice description between
`name='` and `'>` — and equal inputs always give equal outputs; there is no
error path (the return type is `String`). -/
theorem voiceXML_pure_verbatim (s d : String) (l : Locale) (g : Gender) :
    voiceXML s d l g ≠ "" ∧
    (∃ a b, voiceXML s d l g = a ++ s ++ b) ∧
    (∃ a b, voiceXML s d l g = a ++ "' name='" ++ d ++ "'>" ++ b) ∧
    (∀ s2 d2 l2 g2, s = s2 → d = d2 → l = l2 → g = g2 →
      voiceXML s d l g = voiceXML s2 d2 l2 g2) := by
  refine ⟨?_, ?_, ?_, ?_⟩
  · intro h
    have h2 := congrArg String.length h
    simp only [voiceXML, String.length_append] at h2
    have h3 : (0:Nat) < String.length "<speak version='1.0' xml:lang='" := by
      decide
    have h4 : String.length "" = 0 := rfl
    rw [h4] at h2
    omega
  · exact ⟨"<speak version='1.0' xml:lang='" ++ localeString l ++
      "'><voice xml:lang='" ++ localeString l ++ "' xml:gender='" ++
      genderString g ++ "' name='" ++ d ++ "'>", "</voice></speak>", rfl⟩
  · refine ⟨"<speak version='1.0' xml:lang='" ++ localeString l ++
      "'><voice xml:lang='" ++ localeString l ++ "' xml:gender='" ++
      genderString g, s ++ "</voice></speak>", ?_⟩
    unfold voiceXML
    rw [strAppendAssoc]
  · intro s2 d2 l2 g2 hs hd hl hg
    subst hs; subst hd; subst hl; subst hg
    rfl

/-- Closed instance of `voiceXML_pure_verbatim` (the purity conjunct has
hypotheses): the unit-test rendering contains its text verbatim. -/
theorem voiceXML_pure_verbatim_witness :
    ∃ a b,
      voiceXML "Microsoft Speech Service Text-to-Speech API" "ar-EG-Hoda"
        Locale.LocaleEnUS Gender.GenderFemale =
        a ++ "Microsoft Speech Service Text-to-Speech API" ++ b :=
  (voiceXML_pure_verbatim "Microsoft Speech Service Text-to-Speech API"
    "ar-EG-Hoda" Locale.LocaleEnUS Gender.GenderFemale).2.1

/-- C10 counterexample: an out-of-range `AudioOutput` does not make the
synthesis operation partial.  At the concrete value 14 (one past the last
declared constant) the direct `String` call panics (`none`), yet
`SynthesizeWithContext` completes normally: `fmt.Sprint` recovers the
`String`-method panic into a `%!v(PANIC=...)` placeholder, one request is
still issued with that placeholder header value, and the 200 response body
is returned with no error. -/
theorem audioOutput_out_of_range_counterexample :
    audioOutputString 14 = none ∧
    fmtSprintAudioOutput 14 =
      "%!v(PANIC=String method: runtime error: index out of range)" ∧
    (SynthesizeWithContext azSynth "hello" Locale.LocaleDeCH
      Gender.GenderMale 14
      (fun _ => Except.ok ⟨200, "200 OK", "AUDIO"⟩)).1 =
      Except.ok "AUDIO" ∧
    (SynthesizeWithContext azSynth "hello" Locale.LocaleDeCH
      Gender.GenderMale 14
      (fun _ => Except.ok ⟨200, "200 OK", "AUDIO"⟩)).2 =
      [{ method := "POST"
         url := azSynth.textToSpeechURL
         body := voiceXML "hello" "SYS2064" Locale.LocaleDeCH
           Gender.GenderMale
         headers :=
           [("X-Microsoft-OutputFormat",
             "%!v(PANIC=String method: runtime error: index out of range)"),
            ("Content-Type", "application/ssml+xml"),
            ("Authorization", "Bearer oldTok"),
            ("User-Agent", "azuretts")] }] :=
  ⟨rfl, rfl, rfl, rfl⟩

/-- C10 (amended): `AudioOutput.String` is total exactly on the declared
constants 0–13 and `Region.String` exactly on 0–19; any other integer value
panics the direct `String` call (out-of-range slice index).  But because
`SynthesizeWithContext` renders the output-format header with `fmt.Sprint`,
which recovers panics raised inside `String` methods, an out-of-range
`AudioOutput` does not make the public synthesis operation partial and does
not produce an error either: the request is issued with the recovered
placeholder header value and the call completes normally. -/
theorem audioOutputString_range (a r : Int) :
    (0 ≤ a ∧ a < 14 → ∃ s, audioOutputString a = some s) ∧
    (¬(0 ≤ a ∧ a < 14) → audioOutputString a = none) ∧
    (0 ≤ r ∧ r < 20 → ∃ s, regionStringAt r = some s) ∧
    (¬(0 ≤ r ∧ r < 20) → regionStringAt r = none) ∧
    (audioOutputString 0 = some "riff-8khz-8bit-mono-mulaw" ∧
     audioOutputString 13 = some "audio-24khz-96kbitrate-mono-mp3" ∧
     regionStringAt 0 = some "australiaeast" ∧
     regionStringAt 19 = some "westus2") ∧
    (∀ az s l g desc resp transport,
      AzureCSTextToSpeech.RegionVoiceMap az ⟨g, l⟩ = some desc →
      (∀ q, transport q = Except.ok resp) → resp.statusCode = 200 →
      ¬(0 ≤ a ∧ a < 14) →
      (SynthesizeWithContext az s l g a transport).1 = Except.ok resp.body ∧
      (SynthesizeWithContext az s l g a transport).2.length = 1 ∧
      fmtSprintAudioOutput a =
        "%!v(PANIC=String method: runtime error: index out of range)") := by
  refine ⟨?_, ?_, ?_, ?_, ⟨rfl, rfl, rfl, rfl⟩, ?_⟩
  · rintro ⟨h0, h14⟩
    have hlt : a.toNat < audioOutputStrings.length := by
      simp only [audioOutputStrings, List.length]
      omega
    exact ⟨audioOutputStrings.get ⟨a.toNat, hlt⟩,
      by rw [audioOutputString, if_pos h0]; exact List.get?_eq_get hlt⟩
  · intro h
    rw [audioOutputString]
    by_cases h0 : 0 ≤ a
    · rw [if_pos h0]
      apply List.get?_eq_none.mpr
      simp only [audioOutputStrings, List.length]
      omega
    · rw [if_neg h0]
  · rintro ⟨h0, h20⟩
    rw [regionStringAt, if_pos h0]
    have hlt : r.toNat < regionStrings.length := by
      simp only [regionStrings, List.length]
      omega
    exact ⟨_, List.get?_eq_get hlt⟩
  · intro h
    rw [regionStringAt]
    by_cases h0 : 0 ≤ r
    · rw [if_pos h0]
      apply List.get?_eq_none.mpr
      simp only [regionStrings, List.length]
      omega
    · rw [if_neg h0]
  · intro az s l g desc resp transport hmap ht h200 hrange
    have key := synthFstReduce az s l g a transport desc resp hmap ht
    rw [h200] at key
    simp only [if_pos rfl] at key
    refine ⟨key, ?_, ?_⟩
    · simp only [SynthesizeWithContext, hmap, ht]
      split_ifs <;> rfl
    · rw [fmtSprintAudioOutput]
      have hnone : audioOutputString a = none := by
        rw [audioOutputString]
        by_cases h0 : 0 ≤ a
        · rw [if_pos h0]
          apply List.get?_eq_none.mpr
          simp only [audioOutputStrings, List.length]
          omega
        · rw [if_neg h0]
      rw [hnone]

/-- Closed instance of `audioOutputString_range`: value 20 is outside both
tables. -/
theorem audioOutputString_range_witness :
    audioOutputString 20 = none ∧ regionStringAt 20 = none :=
  ⟨(audioOutputString_range 20 20).2.1 (by omega),
   (audioOutputString_range 20 20).2.2.2.1 (by omega)⟩

end AzureTTS
